import Mathlib

/-!
Verification development for the camera stream/recording managers
(`StreamManager` and `RecordingManager` from the server sources).

The TypeScript code is shallowly embedded as follows:

* `Map<string, ActiveStream>` and `Map<number, ActiveRecording>` become
  association lists with `alookup` / `aset` / `aerase`.
* JavaScript `Set<WebSocket>` becomes an insertion-ordered duplicate-free
  `List Nat` of connection identifiers (`addClient` / `List.erase`);
  `size` is `List.length`.
* Spawned ffmpeg child processes are identified by fresh natural numbers
  handed out by a `nextProc` counter; a process is in `liveProcs` while the
  OS process is running.  Whether a given spawn actually produces a runnable
  process is decided by an environment oracle `spawnFails : Nat → Bool`
  (Node's `spawn` itself returns a handle either way; failure surfaces later
  as an asynchronous `error` event).
* `setTimeout` / `clearTimeout` become fresh timer identifiers recorded in a
  `pending` table together with the delay and the data captured by the
  callback closure (the stream object identity and the registry key);
  mutable `ActiveStream` objects live in a `heap` keyed by object identity,
  because the timer and process callbacks capture the object, not the key.
* Asynchronous callbacks (`stdout data`, process `close`, process `error`,
  timer expiry) are separate events of a step function `stepSM`; a trace of
  events is executed with `runSM`.
* Frames actually written to a websocket are logged in `sent`
  (connection id, chunk id); `ws.readyState === OPEN` is membership in
  `openConns`.
-/

section AssocList

variable {κ : Type} {α : Type} [DecidableEq κ]

/-- Lookup in an association list (the embedding of `Map.get`). -/
def alookup (k : κ) : List (κ × α) → Option α
  | [] => none
  | e :: rest => if e.1 = k then some e.2 else alookup k rest

/-- Insert-or-replace in an association list (the embedding of `Map.set`). -/
def aset (k : κ) (v : α) : List (κ × α) → List (κ × α)
  | [] => [(k, v)]
  | e :: rest => if e.1 = k then (k, v) :: rest else e :: aset k v rest

/-- Remove a key from an association list (the embedding of `Map.delete`). -/
def aerase (k : κ) : List (κ × α) → List (κ × α)
  | [] => []
  | e :: rest => if e.1 = k then aerase k rest else e :: aerase k rest

@[simp]
theorem alookup_nil (k : κ) : alookup k ([] : List (κ × α)) = none := rfl

@[simp]
theorem alookup_aset_self (k : κ) (v : α) (l : List (κ × α)) :
    alookup k (aset k v l) = some v := by
  induction l with
  | nil => simp [alookup, aset]
  | cons e rest ih =>
    by_cases h : e.1 = k
    · simp [alookup, aset, h]
    · simp [alookup, aset, h, ih]

theorem alookup_aset_of_ne (k k2 : κ) (v : α) (l : List (κ × α)) (h : k ≠ k2) :
    alookup k (aset k2 v l) = alookup k l := by
  induction l with
  | nil => simp [alookup, aset, Ne.symm h]
  | cons e rest ih =>
    by_cases h2 : e.1 = k2
    · have h3 : ¬ e.1 = k := fun hh => h (hh ▸ h2)
      simp [aset, h2, alookup, Ne.symm h, h3]
    · simp [aset, h2, alookup, ih]

@[simp]
theorem alookup_aerase_self (k : κ) (l : List (κ × α)) :
    alookup k (aerase k l) = none := by
  induction l with
  | nil => simp [aerase]
  | cons e rest ih =>
    by_cases h : e.1 = k
    · simpa [aerase, h] using ih
    · simpa [aerase, h, alookup] using ih

theorem alookup_aerase_of_ne (k k2 : κ) (l : List (κ × α)) (h : k ≠ k2) :
    alookup k (aerase k2 l) = alookup k l := by
  induction l with
  | nil => simp [aerase]
  | cons e rest ih =>
    by_cases h2 : e.1 = k2
    · have h3 : ¬ e.1 = k := fun hh => h (hh ▸ h2)
      simp [aerase, h2, alookup, h3, Ne.symm h, ih]
    · simp [aerase, h2, alookup, ih]

theorem aset_of_alookup_eq (k : κ) (v : α) (l : List (κ × α))
    (h : alookup k l = some v) : aset k v l = l := by
  induction l with
  | nil => simp [alookup] at h
  | cons e rest ih =>
    obtain ⟨ek, ev⟩ := e
    by_cases h2 : ek = k
    · subst h2
      simp [alookup] at h
      subst h
      simp [aset]
    · simp [alookup, h2] at h
      simp [aset, h2, ih h]

theorem alookup_mem (k : κ) (v : α) (l : List (κ × α))
    (h : alookup k l = some v) : (k, v) ∈ l := by
  induction l with
  | nil => simp [alookup] at h
  | cons e rest ih =>
    obtain ⟨ek, ev⟩ := e
    by_cases h2 : ek = k
    · subst h2
      simp [alookup] at h
      subst h
      exact List.mem_cons_self _ _
    · simp [alookup, h2] at h
      exact List.mem_cons_of_mem _ (ih h)

theorem alookup_append_of_none (k : κ) (l1 l2 : List (κ × α))
    (h : alookup k l1 = none) : alookup k (l1 ++ l2) = alookup k l2 := by
  induction l1 with
  | nil => simp
  | cons e rest ih =>
    by_cases h2 : e.1 = k
    · simp [alookup, h2] at h
    · simp only [alookup, if_neg h2] at h
      simpa [alookup, h2] using ih h

end AssocList

/-- `quality: 'low' | 'high'` from the stream manager. -/
inductive Quality
  | low
  | high
deriving DecidableEq

/-- Render a `Quality` the way a template literal renders the union string. -/
def qualityStr : Quality → String
  | .low => "low"
  | .high => "high"

/-- `interface StreamConfig` (host/port/username/password). -/
structure StreamConfig where
  host : String
  port : Nat
  username : String
  password : String
deriving DecidableEq

/-- `interface ActiveStream`: one live transcoding session object.
`ffmpeg` is the spawned process id, `clients` the `Set<WebSocket>`,
`cleanupTimer` the armed `setTimeout` handle, `lastData` the cached chunk. -/
structure ActiveStream where
  procId : Nat
  clients : List Nat
  channelId : Int
  quality : Quality
  audio : Bool
  cleanupTimer : Option Nat
  lastData : Option Nat
deriving DecidableEq

/-- `const CLEANUP_DELAY_MS = 30000` — 30 s teardown grace period. -/
def CLEANUP_DELAY_MS : Nat := 30000

/-- `getStreamKey`: composite registry key
`${channelId}-${quality}-${audio ? 'audio' : 'noaudio'}`. -/
def getStreamKey (channelId : Int) (q : Quality) (audio : Bool) : String :=
  toString channelId ++ "-" ++ qualityStr q ++ "-" ++
    (if audio then "audio" else "noaudio")

/-- The credentialed RTSP URL built by `createStream`
(`subtype=1` selects the low-quality sub stream, `subtype=0` the main one). -/
def streamRtspUrl (cfg : StreamConfig) (channelId : Int) (q : Quality) : String :=
  let subtype : Nat := if q = .low then 1 else 0
  "rtsp://" ++ cfg.username ++ ":" ++ cfg.password ++ "@" ++ cfg.host ++ ":" ++
    toString cfg.port ++ "/cam/realmonitor?channel=" ++ toString channelId ++
    "&subtype=" ++ toString subtype

/-- State of a `StreamManager` instance together with the parts of the
runtime the callbacks touch.  `streams` is the `Map<string, ActiveStream>`
(holding object ids into `heap`); `pending` is the table of armed timers
`timerId ↦ (delayMs, captured object id, captured key)`; `procKey` records,
for every spawned process, the key its `close`/`error` handlers captured;
`sent` is the log of frames written to connections. -/
structure SMState where
  heap : List (Nat × ActiveStream)
  streams : List (String × Nat)
  pending : List (Nat × Nat × Nat × String)
  liveProcs : List Nat
  procKey : List (Nat × String)
  closedProcs : List Nat
  sent : List (Nat × Nat)
  openConns : List Nat
  nextProc : Nat
  nextTimer : Nat
  nextObj : Nat
deriving DecidableEq

/-- Initial manager state (`streams = new Map()`), with a given set of
open viewer connections. -/
def smInit (opens : List Nat) : SMState :=
  { heap := [], streams := [], pending := [], liveProcs := [], procKey := [],
    closedProcs := [], sent := [], openConns := opens,
    nextProc := 0, nextTimer := 0, nextObj := 0 }

/-- JavaScript `Set.add`: append if absent. -/
def addClient (c : Nat) (l : List Nat) : List Nat :=
  if c ∈ l then l else l ++ [c]

/-- `createStream`: spawns ffmpeg for the key, creates the `ActiveStream`
object (empty client set, no timer, no cached data), registers the
data/close/error handlers (modelled by `onData` / `procClose` / `procError`
acting on `procKey`/`heap`), and inserts the object into the registry.
Returns the new state and the object id of the created stream.
A process whose spawn fails (per the `spawnFails` oracle) never becomes a
live OS process, but `spawn` still returns a handle, so registration
proceeds identically. -/
def createStream (spawnFails : Nat → Bool) (cfg : StreamConfig) (s : SMState)
    (channelId : Int) (q : Quality) (audio : Bool) : SMState × Nat :=
  let _rtspUrl := streamRtspUrl cfg channelId q
  let p := s.nextProc
  let stream : ActiveStream :=
    { procId := p, clients := [], channelId := channelId, quality := q,
      audio := audio, cleanupTimer := none, lastData := none }
  let key := getStreamKey channelId q audio
  ({ s with
      heap := aset s.nextObj stream s.heap
      streams := aset key s.nextObj s.streams
      liveProcs := if spawnFails p then s.liveProcs else s.liveProcs ++ [p]
      procKey := s.procKey ++ [(p, key)]
      nextProc := p + 1
      nextObj := s.nextObj + 1 }, s.nextObj)

/-- Common tail of `subscribe`: `stream.clients.add(ws)` followed by the
cached-frame fast path
`if (stream.lastData && ws.readyState === OPEN) ws.send(stream.lastData)`. -/
def subscribeTail (s : SMState) (oid : Nat) (ws : Nat) : SMState :=
  match alookup oid s.heap with
  | none => s
  | some stream =>
    let s1 := { s with
      heap := aset oid { stream with clients := addClient ws stream.clients } s.heap }
    match stream.lastData with
    | some d => if ws ∈ s.openConns then { s1 with sent := s1.sent ++ [(ws, d)] } else s1
    | none => s1

/-- `StreamManager.subscribe`: find-or-create the session for the key;
if found with an armed cleanup timer, `clearTimeout` it and null the field;
then add the connection and replay the cached last frame if any. -/
def subscribe (spawnFails : Nat → Bool) (cfg : StreamConfig) (s : SMState)
    (ws : Nat) (channelId : Int) (q : Quality) (audio : Bool) : SMState :=
  let key := getStreamKey channelId q audio
  match alookup key s.streams with
  | none =>
    let created := createStream spawnFails cfg s channelId q audio
    subscribeTail created.1 created.2 ws
  | some oid =>
    match alookup oid s.heap with
    | none => s
    | some stream =>
      let s1 := match stream.cleanupTimer with
        | some t =>
          { s with
              heap := aset oid { stream with cleanupTimer := none } s.heap
              pending := aerase t s.pending }
        | none => s
      subscribeTail s1 oid ws

/-- `StreamManager.unsubscribe`: remove the connection from the session's
client set if the session exists; if the set became empty, arm a cleanup
timer for `CLEANUP_DELAY_MS` whose callback captures the stream object and
the key.  The previous value of `cleanupTimer` is overwritten without being
cleared, exactly as in the source. -/
def unsubscribe (s : SMState) (ws : Nat) (channelId : Int) (q : Quality)
    (audio : Bool) : SMState :=
  let key := getStreamKey channelId q audio
  match alookup key s.streams with
  | none => s
  | some oid =>
    match alookup oid s.heap with
    | none => s
    | some stream =>
      let clients2 := stream.clients.erase ws
      if clients2.length = 0 then
        { s with
            heap := aset oid
              { stream with clients := clients2, cleanupTimer := some s.nextTimer } s.heap
            pending := s.pending ++ [(s.nextTimer, CLEANUP_DELAY_MS, oid, key)]
            nextTimer := s.nextTimer + 1 }
      else
        { s with heap := aset oid { stream with clients := clients2 } s.heap }

/-- Expiry of an armed cleanup timer: the callback re-checks the captured
object's client set; if still empty it kills the captured process and
deletes the captured key from the registry (whatever entry is there). -/
def fireTimer (s : SMState) (t : Nat) : SMState :=
  match alookup t s.pending with
  | none => s
  | some entry =>
    let s1 := { s with pending := aerase t s.pending }
    let oid := entry.2.1
    let key := entry.2.2
    match alookup oid s1.heap with
    | none => s1
    | some stream =>
      if stream.clients.length = 0 then
        { s1 with
            liveProcs := s1.liveProcs.erase stream.procId
            streams := aerase key s1.streams }
      else s1

/-- `ffmpeg.on('close', ...)`: the process exited (crash, EOF, or after a
kill); the handler deletes the captured key from the registry,
unconditionally.  Fires at most once per spawned process, and only for
processes that actually started. -/
def procClose (spawnFails : Nat → Bool) (s : SMState) (p : Nat) : SMState :=
  if spawnFails p then s
  else if p ∈ s.closedProcs then s
  else match alookup p s.procKey with
    | none => s
    | some key =>
      { s with
          closedProcs := s.closedProcs ++ [p]
          liveProcs := s.liveProcs.erase p
          streams := aerase key s.streams }

/-- `ffmpeg.on('error', ...)`: asynchronous spawn failure; the handler
deletes the captured key from the registry.  Only fires for processes whose
spawn failed. -/
def procError (spawnFails : Nat → Bool) (s : SMState) (p : Nat) : SMState :=
  if spawnFails p then
    if p ∈ s.closedProcs then s
    else match alookup p s.procKey with
      | none => s
      | some key =>
        { s with
            closedProcs := s.closedProcs ++ [p]
            streams := aerase key s.streams }
  else s

/-- `ffmpeg.stdout.on('data', ...)`: cache the chunk in `lastData` and
forward it to every current client whose connection is open. -/
def onData (s : SMState) (p : Nat) (chunk : Nat) : SMState :=
  if p ∈ s.liveProcs then
    match findByProc p s.heap with
    | none => s
    | some e =>
      { s with
          heap := aset e.1 { e.2 with lastData := some chunk } s.heap
          sent := s.sent ++
            (e.2.clients.filter (fun c => decide (c ∈ s.openConns))).map
              (fun c => (c, chunk)) }
  else s
where
  /-- Find the heap entry whose stream object owns process `p` (the data
  handler closure captured the object at creation). -/
  findByProc (p : Nat) : List (Nat × ActiveStream) → Option (Nat × ActiveStream)
    | [] => none
    | e :: rest => if e.2.procId = p then some e else findByProc p rest

/-- The observable events of a `StreamManager` run. -/
inductive SEv
  | sub (ws : Nat) (channelId : Int) (q : Quality) (audio : Bool)
  | unsub (ws : Nat) (channelId : Int) (q : Quality) (audio : Bool)
  | fire (timerId : Nat)
  | close (procId : Nat)
  | fail (procId : Nat)
  | chunk (procId : Nat) (d : Nat)
deriving DecidableEq

/-- One step of the event-loop semantics. -/
def stepSM (spawnFails : Nat → Bool) (cfg : StreamConfig) (s : SMState) :
    SEv → SMState
  | .sub ws ch q a => subscribe spawnFails cfg s ws ch q a
  | .unsub ws ch q a => unsubscribe s ws ch q a
  | .fire t => fireTimer s t
  | .close p => procClose spawnFails s p
  | .fail p => procError spawnFails s p
  | .chunk p d => onData s p d

/-- Run a trace of events from a state. -/
def runSM (spawnFails : Nat → Bool) (cfg : StreamConfig) (s : SMState)
    (evs : List SEv) : SMState :=
  evs.foldl (stepSM spawnFails cfg) s

/-- A fixed concrete configuration used by the concrete scenarios. -/
def cfg0 : StreamConfig :=
  { host := "dvr.local", port := 554, username := "admin", password := "secretpw" }

/-- The oracle for an environment where every spawn succeeds. -/
def spawnOk : Nat → Bool := fun _ => false

/-! ## RecordingManager -/

/-- `interface RecordingConfig` (host/port/username/password). -/
structure RecordingConfig where
  host : String
  port : Nat
  username : String
  password : String
deriving DecidableEq

/-- `interface ActiveRecording`: one per-channel capture session. -/
structure ActiveRecording where
  procId : Nat
  channelId : Int
  channelName : String
  filepath : String
  startTime : String
deriving DecidableEq

/-- The untyped `{ success, message, filepath? }` object returned by
`startRecording` / `stopRecording`. -/
structure RecResult where
  success : Bool
  message : String
  filepath : Option String
deriving DecidableEq

/-- State of a `RecordingManager` instance.  `recordings` is the
`Map<number, ActiveRecording>`; `procCh` records the channel id captured by
each spawned process's `close`/`error` handlers; `killLog` logs every
`kill(signal)` call; `nowIso` is the value `new Date().toISOString()`
returns at the current instant. -/
structure RMState where
  recordings : List (Int × ActiveRecording)
  liveProcs : List Nat
  procCh : List (Nat × Int)
  closedProcs : List Nat
  killLog : List (Nat × String)
  nextProc : Nat
  nowIso : String
deriving DecidableEq

/-- Initial recording-manager state at instant `iso`. -/
def rmInit (iso : String) : RMState :=
  { recordings := [], liveProcs := [], procCh := [], closedProcs := [],
    killLog := [], nextProc := 0, nowIso := iso }

/-- ASCII alphanumeric test, the character class `[a-zA-Z0-9]`. -/
def isAlnumAscii (c : Char) : Bool :=
  c.isAlpha || c.isDigit

/-- `channelName.replace(/[^a-zA-Z0-9]/g, '-')`: every character outside
`[a-zA-Z0-9]` is replaced by a dash, one dash per character. -/
def safeName (name : String) : String :=
  ⟨name.data.map (fun c => if isAlnumAscii c then c else '-')⟩

/-- `new Date().toISOString().replace(/[:.]/g, '-').slice(0, 19)`. -/
def tsOfIso (iso : String) : String :=
  ⟨(iso.data.map (fun c => if c = ':' || c = '.' then '-' else c)).take 19⟩

/-- `path.resolve(__dirname, '../../recordings')`; the absolute prefix is
environment-dependent, so it is modelled as an opaque directory name. -/
def recordingsDir : String := "recordings"

/-- The credentialed RTSP URL built by `startRecording` (always `subtype=0`,
the full-quality main stream). -/
def recRtspUrl (cfg : RecordingConfig) (channelId : Int) : String :=
  "rtsp://" ++ cfg.username ++ ":" ++ cfg.password ++ "@" ++ cfg.host ++ ":" ++
    toString cfg.port ++ "/cam/realmonitor?channel=" ++ toString channelId ++
    "&subtype=0"

/-- `RecordingManager.isRecording`. -/
def isRecording (s : RMState) (channelId : Int) : Bool :=
  (alookup channelId s.recordings).isSome

/-- `RecordingManager.startRecording`: reject if a session for the channel
exists; otherwise build the timestamped file path, spawn ffmpeg recording to
it, register the session keyed by the channel id, and return success with
the path.  As in `createStream`, a failing spawn still returns a handle and
registration proceeds; the failure surfaces later via `recError`. -/
def startRecording (spawnFails : Nat → Bool) (cfg : RecordingConfig)
    (s : RMState) (channelId : Int) (channelName : String) :
    RecResult × RMState :=
  if (alookup channelId s.recordings).isSome then
    ({ success := false, message := "Already recording this channel",
       filepath := none }, s)
  else
    let _rtspUrl := recRtspUrl cfg channelId
    let timestamp := tsOfIso s.nowIso
    let filename := safeName channelName ++ "-" ++ timestamp ++ ".mp4"
    let filepath := recordingsDir ++ "/" ++ filename
    let p := s.nextProc
    let recording : ActiveRecording :=
      { procId := p, channelId := channelId, channelName := channelName,
        filepath := filepath, startTime := s.nowIso }
    ({ success := true, message := "Recording started", filepath := some filepath },
     { s with
        recordings := aset channelId recording s.recordings
        liveProcs := if spawnFails p then s.liveProcs else s.liveProcs ++ [p]
        procCh := s.procCh ++ [(p, channelId)]
        nextProc := p + 1 })

/-- `RecordingManager.stopRecording`: reject if no session exists; otherwise
`kill('SIGINT')` (graceful interrupt, so the container is finalized), delete
the session immediately without waiting for process exit, and return the
stored file path. -/
def stopRecording (s : RMState) (channelId : Int) : RecResult × RMState :=
  match alookup channelId s.recordings with
  | none =>
    ({ success := false, message := "Not recording this channel",
       filepath := none }, s)
  | some recording =>
    ({ success := true, message := "Recording stopped",
       filepath := some recording.filepath },
     { s with
        recordings := aerase channelId s.recordings
        liveProcs := s.liveProcs.erase recording.procId
        killLog := s.killLog ++ [(recording.procId, "SIGINT")] })

/-- `ffmpeg.on('close', ...)` in `startRecording`: the handler deletes the
captured channel id from the registry, unconditionally. -/
def recClose (spawnFails : Nat → Bool) (s : RMState) (p : Nat) : RMState :=
  if spawnFails p then s
  else if p ∈ s.closedProcs then s
  else match alookup p s.procCh with
    | none => s
    | some ch =>
      { s with
          closedProcs := s.closedProcs ++ [p]
          liveProcs := s.liveProcs.erase p
          recordings := aerase ch s.recordings }

/-- `ffmpeg.on('error', ...)` in `startRecording`: asynchronous spawn
failure; the handler deletes the captured channel id from the registry. -/
def recError (spawnFails : Nat → Bool) (s : RMState) (p : Nat) : RMState :=
  if spawnFails p then
    if p ∈ s.closedProcs then s
    else match alookup p s.procCh with
      | none => s
      | some ch =>
        { s with
            closedProcs := s.closedProcs ++ [p]
            recordings := aerase ch s.recordings }
  else s

/-- A fixed concrete recording configuration for the concrete scenarios. -/
def rcfg0 : RecordingConfig :=
  { host := "dvr.local", port := 554, username := "admin", password := "secretpw" }

/-- A fixed concrete start instant for the concrete scenarios. -/
def iso0 : String := "2026-01-02T03:04:05.678Z"

/-! ## Concrete scenarios used by the claim theorems -/

/-- The key of channel 3, low quality, no audio. -/
def key3 : String := getStreamKey 3 .low false

/-- Trace exhibiting the duplicate-live-process bug: viewer 1 subscribes
(spawning process 0), unsubscribes (arming cleanup timer 0), process 0
crashes (its close handler deletes the session but leaves timer 0 pending),
viewer 2 subscribes (spawning process 1), the stale timer fires (its
captured client set is empty, so it deletes viewer 2's fresh session from
the registry while process 1 keeps running), and viewer 3 subscribes
(spawning process 2). -/
def c1Trace : List SEv :=
  [SEv.sub 1 3 .low false, SEv.unsub 1 3 .low false, SEv.close 0,
   SEv.sub 2 3 .low false, SEv.fire 0, SEv.sub 3 3 .low false]

/-- The state reached by `c1Trace`. -/
def c1Final : SMState := runSM spawnOk cfg0 (smInit [1, 2, 3]) c1Trace

/-- State with viewer 1 subscribed to channel 3 (session registered,
process 0 live, client set non-empty). -/
def c3State : SMState := runSM spawnOk cfg0 (smInit [1]) [SEv.sub 1 3 .low false]

/-- State with viewer 1 subscribed to channel 3 (used to instantiate the
unsubscribe conjunct of the grace-period theorem). -/
def c2StateA : SMState := runSM spawnOk cfg0 (smInit [1, 2]) [SEv.sub 1 3 .low false]

/-- State after viewer 1 subscribed and unsubscribed: the client set is
empty and cleanup timer 0 is armed. -/
def c2StateB : SMState :=
  runSM spawnOk cfg0 (smInit [1, 2]) [SEv.sub 1 3 .low false, SEv.unsub 1 3 .low false]

/-- The stream object of `c2StateA`. -/
def streamA : ActiveStream :=
  { procId := 0, clients := [1], channelId := 3, quality := .low,
    audio := false, cleanupTimer := none, lastData := none }

/-- The stream object of `c2StateB`. -/
def streamB : ActiveStream :=
  { procId := 0, clients := [], channelId := 3, quality := .low,
    audio := false, cleanupTimer := some 0, lastData := none }

/-- Helper for `specSanitize`: the boolean flag records whether we are
inside a run of non-alphanumeric characters that has already emitted its
single separator. -/
def specSanitizeAux : List Char → Bool → List Char
  | [], _ => []
  | c :: rest, inRun =>
    if isAlnumAscii c then c :: specSanitizeAux rest false
    else if inRun then specSanitizeAux rest true
    else '-' :: specSanitizeAux rest true

/-- Modelled from the spec: sanitization that strips all characters outside
alphanumerics, "replacing each run of such characters with a single
separator".  This is the refinement comparison point for the file-naming
claim; the source's `safeName` replaces each such character individually. -/
def specSanitize (name : String) : String :=
  ⟨specSanitizeAux name.data false⟩

/-- Invariant of reachable stream-manager states used by the idempotence
claim: a stream object with an armed `cleanupTimer` has an empty client
set (the timer is armed only when the set becomes empty, and cancelled
before a client is added). -/
abbrev TimerInv (s : SMState) : Prop :=
  ∀ e ∈ s.heap, e.2.cleanupTimer.isSome = true → e.2.clients = []

/-- State with viewer 1 subscribed to channel 3 and one chunk produced,
so the session's `lastData` cache is populated. -/
def c7State : SMState :=
  runSM spawnOk cfg0 (smInit [1, 2]) [SEv.sub 1 3 .low false, SEv.chunk 0 7]

/-- The stream object of `c7State`. -/
def c7Stream : ActiveStream :=
  { procId := 0, clients := [1], channelId := 3, quality := .low,
    audio := false, cleanupTimer := none, lastData := some 7 }

/-! ## Claim theorems -/

/-- **C1.** The claimed invariant — at most one transcoder process live per
key at any instant — fails on the code: after `c1Trace` (subscribe,
unsubscribe, process crash, re-subscribe, stale cleanup-timer firing,
re-subscribe), processes 1 and 2 are simultaneously live and both were
spawned for the key `3-low-noaudio`; process 1 is orphaned because the
stale timer's callback deleted the fresh session of viewer 2 from the
registry.  Neither the `close` handler nor the timer callback clears or
re-validates the pending cleanup timer, which contradicts the spec's
"no duplicate spawn race" guarantee. -/
theorem c1_duplicate_live_processes :
    c1Final.liveProcs = [1, 2] ∧
    alookup 1 c1Final.procKey = some key3 ∧
    alookup 2 c1Final.procKey = some key3 ∧
    alookup key3 c1Final.streams = some 2 ∧
    (alookup 2 c1Final.heap).map ActiveStream.procId = some 2 := by
  decide

/-- **C3 (counterexample).** A session *is* destroyed while its subscriber
set is non-empty: with viewer 1 subscribed (client set `[1]`), the process
`close` event removes the session from the registry immediately, refuting
the claim's "never destroyed while its subscriber set is non-empty". -/
theorem c3_counterexample :
    alookup key3 c3State.streams = some 0 ∧
    (alookup 0 c3State.heap).map ActiveStream.clients = some [1] ∧
    alookup key3 (stepSM spawnOk cfg0 c3State (SEv.close 0)).streams = none := by
  decide

theorem subscribeTail_streams (s : SMState) (oid ws : Nat) :
    (subscribeTail s oid ws).streams = s.streams := by
  unfold subscribeTail
  split
  · rfl
  · split
    · split <;> rfl
    · rfl

theorem unsubscribe_streams (s : SMState) (ws : Nat) (ch : Int) (q : Quality)
    (a : Bool) : (unsubscribe s ws ch q a).streams = s.streams := by
  simp only [unsubscribe]
  split
  · rfl
  · split
    · rfl
    · split <;> rfl

theorem onData_streams (s : SMState) (p c : Nat) :
    (onData s p c).streams = s.streams := by
  unfold onData
  split
  · split
    · rfl
    · rfl
  · rfl

theorem subscribe_streams_some (sf : Nat → Bool) (cfg : StreamConfig)
    (s : SMState) (ws : Nat) (ch : Int) (q : Quality) (a : Bool) (oid : Nat)
    (h : alookup (getStreamKey ch q a) s.streams = some oid) :
    (subscribe sf cfg s ws ch q a).streams = s.streams := by
  simp only [subscribe, h]
  cases h2 : alookup oid s.heap with
  | none => rfl
  | some stream =>
    cases h3 : stream.cleanupTimer <;> simp [subscribeTail_streams, h3]

theorem subscribe_streams_none (sf : Nat → Bool) (cfg : StreamConfig)
    (s : SMState) (ws : Nat) (ch : Int) (q : Quality) (a : Bool)
    (h : alookup (getStreamKey ch q a) s.streams = none) :
    (subscribe sf cfg s ws ch q a).streams
      = aset (getStreamKey ch q a) s.nextObj s.streams := by
  simp only [subscribe, h]
  rw [subscribeTail_streams]
  simp [createStream]

/-- **C3 (amended).** A session's registry entry is removed only by a
process `close`/`error` event whose handler captured that key, or by a
teardown-timer expiry whose captured session object has an empty subscriber
set; `subscribe`, `unsubscribe` and data chunks never remove an entry.
(Process exit removes the entry regardless of the current subscriber count,
so destruction with a non-empty subscriber set is possible — see the
counterexample.) -/
theorem c3_removal_only_on_exit_or_idle_timer (sf : Nat → Bool)
    (cfg : StreamConfig) (s : SMState) (ev : SEv) (key : String)
    (h1 : alookup key s.streams ≠ none)
    (h2 : alookup key (stepSM sf cfg s ev).streams = none) :
    (∃ p, (ev = SEv.close p ∨ ev = SEv.fail p) ∧ alookup p s.procKey = some key) ∨
    (∃ t d oid stream, ev = SEv.fire t ∧
       alookup t s.pending = some (d, oid, key) ∧
       alookup oid s.heap = some stream ∧ stream.clients = []) := by
  cases ev with
  | sub ws ch q a =>
    exfalso
    simp only [stepSM] at h2
    cases hk : alookup (getStreamKey ch q a) s.streams with
    | some oid =>
      rw [subscribe_streams_some sf cfg s ws ch q a oid hk] at h2
      exact h1 h2
    | none =>
      rw [subscribe_streams_none sf cfg s ws ch q a hk] at h2
      by_cases heq : key = getStreamKey ch q a
      · subst heq
        rw [alookup_aset_self] at h2
        cases h2
      · rw [alookup_aset_of_ne _ _ _ _ heq] at h2
        exact h1 h2
  | unsub ws ch q a =>
    exfalso
    simp only [stepSM] at h2
    rw [unsubscribe_streams] at h2
    exact h1 h2
  | fire t =>
    simp only [stepSM] at h2
    cases hp : alookup t s.pending with
    | none =>
      exfalso
      simp only [fireTimer, hp] at h2
      exact h1 h2
    | some entry =>
      obtain ⟨d, oid, key2⟩ := entry
      simp only [fireTimer, hp] at h2
      cases hh : alookup oid s.heap with
      | none =>
        exfalso
        simp only [hh] at h2
        exact h1 h2
      | some stream =>
        simp only [hh] at h2
        by_cases hcl : stream.clients.length = 0
        · simp only [if_pos hcl] at h2
          by_cases hkey : key = key2
          · subst hkey
            exact Or.inr ⟨t, d, oid, stream, rfl, hp, hh, List.length_eq_zero.mp hcl⟩
          · exfalso
            rw [alookup_aerase_of_ne _ _ _ hkey] at h2
            exact h1 h2
        · exfalso
          simp only [if_neg hcl] at h2
          exact h1 h2
  | close p =>
    simp only [stepSM, procClose] at h2
    by_cases hsf : sf p
    · exfalso
      rw [if_pos hsf] at h2
      exact h1 h2
    · rw [if_neg hsf] at h2
      by_cases hcp : p ∈ s.closedProcs
      · exfalso
        rw [if_pos hcp] at h2
        exact h1 h2
      · rw [if_neg hcp] at h2
        cases hk : alookup p s.procKey with
        | none =>
          exfalso
          simp only [hk] at h2
          exact h1 h2
        | some key2 =>
          simp only [hk] at h2
          by_cases hkey : key = key2
          · subst hkey
            exact Or.inl ⟨p, Or.inl rfl, hk⟩
          · exfalso
            rw [alookup_aerase_of_ne _ _ _ hkey] at h2
            exact h1 h2
  | fail p =>
    simp only [stepSM, procError] at h2
    by_cases hsf : sf p
    · rw [if_pos hsf] at h2
      by_cases hcp : p ∈ s.closedProcs
      · exfalso
        rw [if_pos hcp] at h2
        exact h1 h2
      · rw [if_neg hcp] at h2
        cases hk : alookup p s.procKey with
        | none =>
          exfalso
          simp only [hk] at h2
          exact h1 h2
        | some key2 =>
          simp only [hk] at h2
          by_cases hkey : key = key2
          · subst hkey
            exact Or.inl ⟨p, Or.inr rfl, hk⟩
          · exfalso
            rw [alookup_aerase_of_ne _ _ _ hkey] at h2
            exact h1 h2
    · exfalso
      rw [if_neg hsf] at h2
      exact h1 h2
  | chunk p c =>
    exfalso
    simp only [stepSM] at h2
    rw [onData_streams] at h2
    exact h1 h2

/-- **C4.** `startRecording` with a session already registered for the
channel fails with the already-recording reason and is a complete no-op
(the returned state is the input state, so no process is spawned and the
registry is unchanged); on a free channel it succeeds with a file path,
registers a session keyed by the channel id, and `isRecording` becomes
true. -/
theorem c4_start_recording_already (sf : Nat → Bool) (cfg : RecordingConfig)
    (s : RMState) (ch : Int) (name : String) :
    ((alookup ch s.recordings).isSome →
      startRecording sf cfg s ch name =
        ({ success := false, message := "Already recording this channel",
           filepath := none }, s)) ∧
    (alookup ch s.recordings = none →
      (startRecording sf cfg s ch name).1.success = true ∧
      (startRecording sf cfg s ch name).1.message = "Recording started" ∧
      (∃ fp, (startRecording sf cfg s ch name).1.filepath = some fp) ∧
      (∃ r, alookup ch (startRecording sf cfg s ch name).2.recordings = some r) ∧
      isRecording (startRecording sf cfg s ch name).2 ch = true) := by
  constructor
  · intro h
    simp only [startRecording, if_pos h]
  · intro h
    have h2 : ¬ (alookup ch s.recordings).isSome := by simp [h]
    simp only [startRecording, if_neg h2]
    refine ⟨trivial, trivial, ⟨_, rfl⟩, ⟨_, alookup_aset_self _ _ _⟩, ?_⟩
    simp [isRecording, alookup_aset_self]

/-- Concrete instantiation of `c4_start_recording_already`: starting twice
on channel 5. -/
theorem c4_start_recording_already_witness :
    (startRecording spawnOk rcfg0
        (startRecording spawnOk rcfg0 (rmInit iso0) 5 "Front Door").2 5 "Front Door" =
      ({ success := false, message := "Already recording this channel",
         filepath := none },
       (startRecording spawnOk rcfg0 (rmInit iso0) 5 "Front Door").2)) ∧
    ((startRecording spawnOk rcfg0 (rmInit iso0) 5 "Front Door").1.success = true ∧
     (startRecording spawnOk rcfg0 (rmInit iso0) 5 "Front Door").1.message
        = "Recording started" ∧
     (∃ fp, (startRecording spawnOk rcfg0 (rmInit iso0) 5 "Front Door").1.filepath
        = some fp) ∧
     (∃ r, alookup 5
        (startRecording spawnOk rcfg0 (rmInit iso0) 5 "Front Door").2.recordings
          = some r) ∧
     isRecording (startRecording spawnOk rcfg0 (rmInit iso0) 5 "Front Door").2 5
        = true) :=
  ⟨(c4_start_recording_already spawnOk rcfg0
      (startRecording spawnOk rcfg0 (rmInit iso0) 5 "Front Door").2 5 "Front Door").1
      (by decide),
   (c4_start_recording_already spawnOk rcfg0 (rmInit iso0) 5 "Front Door").2
      (by decide)⟩

/-- **C5.** `stopRecording` on a channel with no session fails with the
not-recording reason and is a complete no-op; on a registered session it
returns success with the stored file path, kills the process with the
graceful `SIGINT` (not a hard kill), removes the session immediately (so
`isRecording` becomes false), without waiting for any process-exit event;
and composed after a successful `startRecording` it returns exactly the
file path `startRecording` produced. -/
theorem c5_stop_recording (sf : Nat → Bool) (cfg : RecordingConfig)
    (s : RMState) (ch : Int) (name : String) (r : ActiveRecording) :
    (alookup ch s.recordings = none →
      stopRecording s ch =
        ({ success := false, message := "Not recording this channel",
           filepath := none }, s)) ∧
    (alookup ch s.recordings = some r →
      stopRecording s ch =
        ({ success := true, message := "Recording stopped",
           filepath := some r.filepath },
         { s with
            recordings := aerase ch s.recordings
            liveProcs := s.liveProcs.erase r.procId
            killLog := s.killLog ++ [(r.procId, "SIGINT")] }) ∧
      isRecording (stopRecording s ch).2 ch = false) ∧
    (alookup ch s.recordings = none →
      (stopRecording (startRecording sf cfg s ch name).2 ch).1.filepath
        = (startRecording sf cfg s ch name).1.filepath) := by
  refine ⟨?_, ?_, ?_⟩
  · intro h
    simp only [stopRecording, h]
  · intro h
    simp only [stopRecording, h]
    exact ⟨trivial, by simp [isRecording, alookup_aerase_self]⟩
  · intro h
    have h2 : ¬ (alookup ch s.recordings).isSome := by simp [h]
    simp only [startRecording, if_neg h2, stopRecording, alookup_aset_self]

/-- Concrete instantiation of `c5_stop_recording`. -/
theorem c5_stop_recording_witness :
    (stopRecording (rmInit iso0) 5 =
      ({ success := false, message := "Not recording this channel",
         filepath := none }, rmInit iso0)) ∧
    ((stopRecording (startRecording spawnOk rcfg0 (rmInit iso0) 5 "Front Door").2 5).1.filepath
        = (startRecording spawnOk rcfg0 (rmInit iso0) 5 "Front Door").1.filepath) :=
  ⟨(c5_stop_recording spawnOk rcfg0 (rmInit iso0) 5 "Front Door"
      { procId := 0, channelId := 5, channelName := "Front Door",
        filepath := "", startTime := iso0 }).1 (by decide),
   (c5_stop_recording spawnOk rcfg0 (rmInit iso0) 5 "Front Door"
      { procId := 0, channelId := 5, channelName := "Front Door",
        filepath := "", startTime := iso0 }).2.2 (by decide)⟩

/-- **C6 (counterexample).** The claim — when the spawn fails the failure
surfaces as a failed `startRecording` and the session is not registered —
is false: with an environment in which every spawn fails, `startRecording`
on a fresh channel still returns success and registers the session (the
failure only surfaces later via the asynchronous `error` event).  Refuted
at the concrete input `startRecording (rmInit iso0) 1 "cam"`. -/
theorem c6_counterexample :
    ¬ (∀ (s : RMState) (ch : Int) (name : String),
        alookup ch s.recordings = none →
        ((startRecording (fun _ => true) rcfg0 s ch name).1.success = false ∧
         (startRecording (fun _ => true) rcfg0 s ch name).2.recordings
            = s.recordings)) := by
  intro h
  have h2 := h (rmInit iso0) 1 "cam" (by decide)
  exact absurd h2.1 (by decide)

/-- **C6 (amended).** A spawn failure is not surfaced synchronously:
`startRecording` still returns success and registers the session, and
`subscribe` still registers the stream session, with the failed process
never becoming live; when the asynchronous `error` event fires, the
registered entry is removed, so the session does not persist. -/
theorem c6_spawn_failure_is_asynchronous (sf : Nat → Bool)
    (cfg : RecordingConfig) (scfg : StreamConfig) (s : RMState) (t : SMState)
    (ch ch2 : Int) (name : String) (ws : Nat) (q : Quality) (a : Bool) :
    (alookup ch s.recordings = none →
     sf s.nextProc = true →
     alookup s.nextProc s.procCh = none →
     s.nextProc ∉ s.closedProcs →
     (startRecording sf cfg s ch name).1.success = true ∧
     (∃ r, alookup ch (startRecording sf cfg s ch name).2.recordings = some r ∧
        r.procId = s.nextProc) ∧
     (startRecording sf cfg s ch name).2.liveProcs = s.liveProcs ∧
     alookup ch
        (recError sf (startRecording sf cfg s ch name).2 s.nextProc).recordings
          = none) ∧
    (alookup (getStreamKey ch2 q a) t.streams = none →
     sf t.nextProc = true →
     alookup t.nextProc t.procKey = none →
     t.nextProc ∉ t.closedProcs →
     alookup (getStreamKey ch2 q a) (subscribe sf scfg t ws ch2 q a).streams
        = some t.nextObj ∧
     (subscribe sf scfg t ws ch2 q a).liveProcs = t.liveProcs ∧
     alookup (getStreamKey ch2 q a)
        (procError sf (subscribe sf scfg t ws ch2 q a) t.nextProc).streams
          = none) := by
  constructor
  · intro h hsf hpc hcl
    have h2 : ¬ (alookup ch s.recordings).isSome := by simp [h]
    simp only [startRecording, if_neg h2]
    refine ⟨trivial, ⟨_, alookup_aset_self _ _ _, rfl⟩, by simp [hsf], ?_⟩
    simp only [recError, hsf, if_pos]
    rw [if_neg hcl]
    rw [alookup_append_of_none _ _ _ hpc]
    simp [alookup, alookup_aerase_self]
  · intro h hsf hpk hcl
    refine ⟨?_, ?_, ?_⟩
    · rw [subscribe_streams_none sf scfg t ws ch2 q a h, alookup_aset_self]
    · simp only [subscribe, h, createStream, hsf, subscribeTail, if_pos]
      split
      · rfl
      · split
        · split <;> rfl
        · rfl
    · simp only [procError, hsf, if_pos]
      have hcl2 : (subscribe sf scfg t ws ch2 q a).closedProcs = t.closedProcs := by
        simp only [subscribe, h, createStream, subscribeTail]
        split
        · rfl
        · split
          · split <;> rfl
          · rfl
      have hpk2 : (subscribe sf scfg t ws ch2 q a).procKey
          = t.procKey ++ [(t.nextProc, getStreamKey ch2 q a)] := by
        simp only [subscribe, h, createStream, subscribeTail]
        split
        · rfl
        · split
          · split <;> rfl
          · rfl
      have hnp : (subscribe sf scfg t ws ch2 q a).nextProc = t.nextProc + 1 := by
        simp only [subscribe, h, createStream, subscribeTail]
        split
        · rfl
        · split
          · split <;> rfl
          · rfl
      rw [hcl2, if_neg hcl, hpk2, alookup_append_of_none _ _ _ hpk]
      simp only [alookup, if_pos rfl]
      rw [subscribe_streams_none sf scfg t ws ch2 q a h]
      exact alookup_aerase_self _ _

/-- Concrete instantiation of `c6_spawn_failure_is_asynchronous` in an
environment where every spawn fails. -/
theorem c6_spawn_failure_witness :
    ((startRecording (fun _ => true) rcfg0 (rmInit iso0) 1 "cam").1.success = true ∧
     (∃ r, alookup 1
        (startRecording (fun _ => true) rcfg0 (rmInit iso0) 1 "cam").2.recordings
          = some r ∧ r.procId = (rmInit iso0).nextProc) ∧
     (startRecording (fun _ => true) rcfg0 (rmInit iso0) 1 "cam").2.liveProcs
        = (rmInit iso0).liveProcs ∧
     alookup 1
        (recError (fun _ => true)
          (startRecording (fun _ => true) rcfg0 (rmInit iso0) 1 "cam").2 0).recordings
          = none) ∧
    (alookup key3
        (subscribe (fun _ => true) cfg0 (smInit [1]) 1 3 .low false).streams
          = some (smInit [1]).nextObj ∧
     (subscribe (fun _ => true) cfg0 (smInit [1]) 1 3 .low false).liveProcs
        = (smInit [1]).liveProcs ∧
     alookup key3
        (procError (fun _ => true)
          (subscribe (fun _ => true) cfg0 (smInit [1]) 1 3 .low false) 0).streams
          = none) :=
  ⟨(c6_spawn_failure_is_asynchronous (fun _ => true) rcfg0 cfg0 (rmInit iso0)
      (smInit [1]) 1 3 "cam" 1 .low false).1
      (by decide) (by decide) (by decide) (by decide),
   (c6_spawn_failure_is_asynchronous (fun _ => true) rcfg0 cfg0 (rmInit iso0)
      (smInit [1]) 1 3 "cam" 1 .low false).2
      (by decide) (by decide) (by decide) (by decide)⟩

/-- Concrete instantiation of `c3_removal_only_on_exit_or_idle_timer`:
the removal caused by the crash of process 0 is attributed to its `close`
event. -/
theorem c3_removal_witness :
    (∃ p, (SEv.close 0 = SEv.close p ∨ SEv.close 0 = SEv.fail p) ∧
        alookup p c3State.procKey = some key3) ∨
    (∃ t d oid stream, SEv.close 0 = SEv.fire t ∧
        alookup t c3State.pending = some (d, oid, key3) ∧
        alookup oid c3State.heap = some stream ∧ stream.clients = []) :=
  c3_removal_only_on_exit_or_idle_timer spawnOk cfg0 c3State (SEv.close 0) key3
    (by decide) (by decide)

/-- **C2.** When `unsubscribe` removes the last subscriber of a session, the
process is not killed immediately: a teardown timer with the fixed 30000 ms
grace period is armed and the session stays registered (conjunct 1); if an
armed timer fires while the captured session's subscriber set is still
empty, the process is killed and the session's key is removed from the
registry (conjunct 2); if a `subscribe` for the same key arrives while the
session's teardown timer is armed, the pending teardown is cancelled, the
same session object with the same process is kept, and no new process is
spawned (conjunct 3). -/
theorem c2_teardown_grace_period (sf : Nat → Bool) (cfg : StreamConfig)
    (s : SMState) (ws ws2 : Nat) (ch : Int) (q : Quality) (a : Bool)
    (oid : Nat) (stream : ActiveStream) :
    (alookup (getStreamKey ch q a) s.streams = some oid →
     alookup oid s.heap = some stream →
     stream.clients = [ws] →
     alookup s.nextTimer s.pending = none →
     alookup s.nextTimer (unsubscribe s ws ch q a).pending
        = some (CLEANUP_DELAY_MS, oid, getStreamKey ch q a) ∧
     (unsubscribe s ws ch q a).liveProcs = s.liveProcs ∧
     alookup (getStreamKey ch q a) (unsubscribe s ws ch q a).streams = some oid) ∧
    (∀ t d, alookup t s.pending = some (d, oid, getStreamKey ch q a) →
     alookup oid s.heap = some stream →
     stream.clients = [] →
     s.liveProcs.Nodup →
     stream.procId ∉ (fireTimer s t).liveProcs ∧
     alookup (getStreamKey ch q a) (fireTimer s t).streams = none) ∧
    (∀ t, alookup (getStreamKey ch q a) s.streams = some oid →
     alookup oid s.heap = some stream →
     stream.cleanupTimer = some t →
     alookup t (subscribe sf cfg s ws2 ch q a).pending = none ∧
     alookup (getStreamKey ch q a) (subscribe sf cfg s ws2 ch q a).streams = some oid ∧
     (∃ st2, alookup oid (subscribe sf cfg s ws2 ch q a).heap = some st2 ∧
        st2.procId = stream.procId ∧ st2.cleanupTimer = none ∧
        st2.lastData = stream.lastData) ∧
     (subscribe sf cfg s ws2 ch q a).nextProc = s.nextProc ∧
     (subscribe sf cfg s ws2 ch q a).liveProcs = s.liveProcs) := by
  refine ⟨?_, ?_, ?_⟩
  · intro hs hh hc hfresh
    simp only [unsubscribe, hs, hh, hc, List.erase_cons_head, List.length_nil,
      if_pos]
    refine ⟨?_, by simp, by simp [hs]⟩
    rw [alookup_append_of_none _ _ _ hfresh]
    simp [alookup]
  · intro t d hp hh hc hnd
    simp only [fireTimer, hp, hh, hc, List.length_nil, if_pos]
    refine ⟨?_, by simp [alookup_aerase_self]⟩
    intro hmem
    rw [List.Nodup.mem_erase_iff hnd] at hmem
    exact hmem.1 rfl
  · intro t hs hh ht
    simp only [subscribe, hs, hh, ht, subscribeTail, alookup_aset_self]
    cases hld : stream.lastData with
    | none =>
      exact ⟨by simp [alookup_aerase_self], by simp [hs],
        ⟨_, alookup_aset_self _ _ _, rfl, rfl, rfl⟩, by simp, by simp⟩
    | some d =>
      by_cases hopen : ws2 ∈ s.openConns
      · simp only [if_pos hopen]
        exact ⟨by simp [alookup_aerase_self], by simp [hs],
          ⟨_, alookup_aset_self _ _ _, rfl, rfl, rfl⟩, by simp, by simp⟩
      · simp only [if_neg hopen]
        exact ⟨by simp [alookup_aerase_self], by simp [hs],
          ⟨_, alookup_aset_self _ _ _, rfl, rfl, rfl⟩, by simp, by simp⟩

/-- Concrete instantiation of `c2_teardown_grace_period` discharging all of
its hypotheses. -/
theorem c2_teardown_grace_period_witness :
    (alookup 0 (unsubscribe c2StateA 1 3 .low false).pending
        = some (CLEANUP_DELAY_MS, 0, key3) ∧
     (unsubscribe c2StateA 1 3 .low false).liveProcs = c2StateA.liveProcs ∧
     alookup key3 (unsubscribe c2StateA 1 3 .low false).streams = some 0) ∧
    (streamB.procId ∉ (fireTimer c2StateB 0).liveProcs ∧
     alookup key3 (fireTimer c2StateB 0).streams = none) ∧
    (alookup 0 (subscribe spawnOk cfg0 c2StateB 2 3 .low false).pending = none ∧
     alookup key3 (subscribe spawnOk cfg0 c2StateB 2 3 .low false).streams = some 0 ∧
     (∃ st2, alookup 0 (subscribe spawnOk cfg0 c2StateB 2 3 .low false).heap = some st2 ∧
        st2.procId = streamB.procId ∧ st2.cleanupTimer = none ∧
        st2.lastData = streamB.lastData) ∧
     (subscribe spawnOk cfg0 c2StateB 2 3 .low false).nextProc = c2StateB.nextProc ∧
     (subscribe spawnOk cfg0 c2StateB 2 3 .low false).liveProcs = c2StateB.liveProcs) :=
  ⟨(c2_teardown_grace_period spawnOk cfg0 c2StateA 1 2 3 .low false 0 streamA).1
      (by decide) (by decide) (by decide) (by decide),
   (c2_teardown_grace_period spawnOk cfg0 c2StateB 1 2 3 .low false 0 streamB).2.1
      0 CLEANUP_DELAY_MS (by decide) (by decide) (by decide) (by decide),
   (c2_teardown_grace_period spawnOk cfg0 c2StateB 1 2 3 .low false 0 streamB).2.2
      0 (by decide) (by decide) (by decide)⟩

/-- **C7.** A subscriber joining an already-active session whose cached
last frame is non-null receives exactly that frame at subscription time,
appended to the delivery log before any chunk produced afterwards
(conjunct 1); a subscriber whose subscribe created the session receives
nothing at subscription time, because `lastData` starts null (conjunct 2);
a chunk produced by a live process is then forwarded to every current
client with an open connection, in client-set order (conjunct 3). -/
theorem c7_cached_frame_on_join (sf : Nat → Bool) (scfg : StreamConfig)
    (s : SMState) (ws : Nat) (ch : Int) (q : Quality) (a : Bool)
    (oid : Nat) (stream : ActiveStream) (d p c : Nat) :
    (alookup (getStreamKey ch q a) s.streams = some oid →
     alookup oid s.heap = some stream →
     stream.lastData = some d →
     ws ∈ s.openConns →
     (subscribe sf scfg s ws ch q a).sent = s.sent ++ [(ws, d)]) ∧
    (alookup (getStreamKey ch q a) s.streams = none →
     (subscribe sf scfg s ws ch q a).sent = s.sent) ∧
    (p ∈ s.liveProcs →
     onData.findByProc p s.heap = some (oid, stream) →
     (onData s p c).sent = s.sent ++
       (stream.clients.filter (fun x => decide (x ∈ s.openConns))).map
         (fun x => (x, c))) := by
  refine ⟨?_, ?_, ?_⟩
  · intro hs hh hld hopen
    simp only [subscribe, hs, hh]
    cases ht : stream.cleanupTimer with
    | none => simp [subscribeTail, hh, hld, hopen]
    | some t => simp [subscribeTail, alookup_aset_self, hld, hopen]
  · intro hs
    simp only [subscribe, hs]
    simp [createStream, subscribeTail, alookup_aset_self]
  · intro hp hf
    simp only [onData, if_pos hp, hf]

/-- Concrete instantiation of `c7_cached_frame_on_join`: viewer 2 joins an
active session and gets the cached chunk 7; a session-creating subscribe
delivers nothing; a later chunk 9 goes to the current subscriber. -/
theorem c7_cached_frame_witness :
    ((subscribe spawnOk cfg0 c7State 2 3 .low false).sent
        = c7State.sent ++ [(2, 7)]) ∧
    ((subscribe spawnOk cfg0 (smInit [1]) 1 3 .low false).sent
        = (smInit [1]).sent) ∧
    ((onData c7State 0 9).sent = c7State.sent ++
        ((c7Stream.clients.filter (fun x => decide (x ∈ c7State.openConns))).map
          (fun x => (x, 9)))) :=
  ⟨(c7_cached_frame_on_join spawnOk cfg0 c7State 2 3 .low false 0 c7Stream 7 0 9).1
      (by decide) (by decide) (by decide) (by decide),
   (c7_cached_frame_on_join spawnOk cfg0 (smInit [1]) 1 3 .low false 0 c7Stream 7 0 9).2.1
      (by decide),
   (c7_cached_frame_on_join spawnOk cfg0 c7State 2 3 .low false 0 c7Stream 7 0 9).2.2
      (by decide) (by decide)⟩

/-- **C8 (counterexample).** The claim's sanitization — "replacing each run
of such characters with a single separator" — does not match the code: for
the channel name `a!!b` the run-collapsing sanitization gives `a-b`, but
`startRecording` produces `a--b` (one dash per character), so the produced
path differs from the claimed form at this concrete input. -/
theorem c8_counterexample :
    specSanitize "a!!b" = "a-b" ∧
    (startRecording spawnOk rcfg0 (rmInit iso0) 5 "a!!b").1.filepath
      = some "recordings/a--b-2026-01-02T03-04-05.mp4" ∧
    (startRecording spawnOk rcfg0 (rmInit iso0) 5 "a!!b").1.filepath ≠
      some (recordingsDir ++ "/" ++
        (specSanitize "a!!b" ++ "-" ++ tsOfIso iso0 ++ ".mp4")) := by
  decide

/-- **C8 (amended).** The recording file path produced by a successful
`startRecording` has the form
`{recordingsDir}/{safeName channelName}-{timestamp}.mp4`, where `safeName`
replaces every character outside `[a-zA-Z0-9]` with a single dash (one
dash per character, so runs of such characters become runs of dashes) and
the timestamp is the ISO rendering of the start instant with `:` and `.`
replaced by `-`, truncated to 19 characters. -/
theorem c8_filename_per_char_sanitization (sf : Nat → Bool)
    (cfg : RecordingConfig) (s : RMState) (ch : Int) (name : String)
    (h : alookup ch s.recordings = none) :
    (startRecording sf cfg s ch name).1.filepath =
      some (recordingsDir ++ "/" ++
        (safeName name ++ "-" ++ tsOfIso s.nowIso ++ ".mp4")) := by
  have h2 : ¬ (alookup ch s.recordings).isSome := by simp [h]
  simp only [startRecording, if_neg h2]

/-- Concrete instantiation of `c8_filename_per_char_sanitization`. -/
theorem c8_filename_witness :
    (startRecording spawnOk rcfg0 (rmInit iso0) 5 "Front Door").1.filepath
      = some "recordings/Front-Door-2026-01-02T03-04-05.mp4" :=
  (c8_filename_per_char_sanitization spawnOk rcfg0 (rmInit iso0) 5 "Front Door"
      (by decide)).trans (by decide)

/-- **C9 (counterexample).** The claim requires a failure reason that
distinguishes the "process could not start" case, but the code surfaces no
synchronous failure at all when the spawn fails: in an environment where
every spawn fails, `startRecording` on a fresh channel still returns
success, refuted at the concrete input `startRecording (rmInit iso0) 1
"cam"`. -/
theorem c9_counterexample :
    ¬ (∀ (s : RMState) (ch : Int) (name : String),
        alookup ch s.recordings = none →
        (startRecording (fun _ => true) rcfg0 s ch name).1.success = false) := by
  intro h
  exact absurd (h (rmInit iso0) 1 "cam" (by decide)) (by decide)

/-- **C9 (amended).** The result `startRecording` returns is independent of
the configuration — in particular of the credentials embedded in the
constructed RTSP URL, which therefore cannot leak into any reason string
(conjunct 1); every reason string of `startRecording` and `stopRecording`
is one of four fixed constants (conjuncts 2 and 3); and the two failure
reasons that exist — already-recording and not-recording — are distinct
(conjunct 4).  A spawn failure or an invalid input produces no synchronous
failure reason at all (see the counterexample). -/
theorem c9_reason_strings_constant :
    (∀ (sf : Nat → Bool) (cfg1 cfg2 : RecordingConfig) (s : RMState)
        (ch : Int) (name : String),
      (startRecording sf cfg1 s ch name).1 = (startRecording sf cfg2 s ch name).1) ∧
    (∀ (sf : Nat → Bool) (cfg : RecordingConfig) (s : RMState) (ch : Int)
        (name : String),
      (startRecording sf cfg s ch name).1.message = "Already recording this channel" ∨
      (startRecording sf cfg s ch name).1.message = "Recording started") ∧
    (∀ (s : RMState) (ch : Int),
      (stopRecording s ch).1.message = "Not recording this channel" ∨
      (stopRecording s ch).1.message = "Recording stopped") ∧
    ("Already recording this channel" ≠ ("Not recording this channel" : String)) := by
  refine ⟨?_, ?_, ?_, by decide⟩
  · intro sf cfg1 cfg2 s ch name
    by_cases h : (alookup ch s.recordings).isSome <;>
      simp [startRecording, h]
  · intro sf cfg s ch name
    by_cases h : (alookup ch s.recordings).isSome
    · left
      simp [startRecording, h]
    · right
      simp [startRecording, h]
  · intro s ch
    cases h : alookup ch s.recordings with
    | none =>
      left
      simp [stopRecording, h]
    | some r =>
      right
      simp [stopRecording, h]

/-- **C10.** Subscribing a connection that is already in the session's
client set for the same key is idempotent on the whole manager state except
the delivery log: the client set (hence its size) is unchanged because the
set has set semantics, no process is spawned, and the only effect is that
the cached last frame, if any, is re-sent to that connection.  The
`TimerInv` hypothesis (armed timer implies empty client set) holds in every
reachable state and rules out a pending-teardown cancellation, which could
not occur with a non-empty client set. -/
theorem c10_subscribe_idempotent (sf : Nat → Bool) (scfg : StreamConfig)
    (s : SMState) (ws : Nat) (ch : Int) (q : Quality) (a : Bool)
    (oid : Nat) (stream : ActiveStream)
    (h1 : alookup (getStreamKey ch q a) s.streams = some oid)
    (h2 : alookup oid s.heap = some stream)
    (h3 : ws ∈ stream.clients)
    (h4 : TimerInv s) :
    subscribe sf scfg s ws ch q a =
      { s with sent := s.sent ++
          (match stream.lastData with
           | some d => if ws ∈ s.openConns then [(ws, d)] else []
           | none => []) } := by
  obtain ⟨pid, cl, cid, qq, au, ctm, ld⟩ := stream
  have ht : ctm = none := by
    cases hc : ctm with
    | none => rfl
    | some t =>
      have he := h4 (oid, ⟨pid, cl, cid, qq, au, ctm, ld⟩)
        (alookup_mem _ _ _ h2) (by simp [hc])
      simp only at he
      rw [he] at h3
      exact absurd h3 (List.not_mem_nil ws)
  subst ht
  have hadd : addClient ws cl = cl := by
    simp only at h3
    simp [addClient, h3]
  simp only [subscribe, h1, h2, subscribeTail, hadd,
    aset_of_alookup_eq _ _ _ h2]
  cases hld : ld with
  | none => simp
  | some d =>
    by_cases hopen : ws ∈ s.openConns
    · simp [hopen]
    · simp [hopen]

/-- Concrete instantiation of `c10_subscribe_idempotent`: viewer 1
re-subscribes to the session it is already in; the only state change is the
re-sent cached frame. -/
theorem c10_subscribe_idempotent_witness :
    subscribe spawnOk cfg0 c7State 1 3 .low false =
      { c7State with sent := c7State.sent ++
          (match c7Stream.lastData with
           | some d => if 1 ∈ c7State.openConns then [(1, d)] else []
           | none => []) } :=
  c10_subscribe_idempotent spawnOk cfg0 c7State 1 3 .low false 0 c7Stream
    (by decide) (by decide) (by decide) (by decide)
